import Mathlib

/-!
Verification development for the multi-agent quantum-algorithm-recommendation
backend.  The Python sources (`src/agents/*.py`, `src/services/*.py`) are
shallowly embedded below: dictionaries become records whose fields are
`Option`-valued (a `none` field models an absent key), JSON numbers become
`ℚ`/`ℤ`, the external reasoning call becomes an `Except`-valued input (an
`error` models a raised transport exception, an `ok` carries the textual
reply), and the standard-library JSON decoder is abstracted as a parameter
`decode : List Char → Option R` (its `none` models `json.JSONDecodeError`).
Replies and payload texts are `List Char`, mirroring Python `str` values, so
that the fence-stripping logic of each agent (`strip` / `startswith` /
`split`) can be embedded character by character.
-/

namespace QuantumOptimizer

/-! ## Python string primitives used by the agents -/

/-- The backquote character, U+0060 (written via its code point). -/
def btick : Char := Char.ofNat 96

/-- Python `str.startswith`: does the second list start with the first? -/
def startsWithL : List Char → List Char → Bool
  | [], _ => true
  | _ :: _, [] => false
  | p :: ps, c :: cs => (p == c) && startsWithL ps cs

/-- Does `s` contain an occurrence of `sep` (Python `sep in s`)? -/
def hasSub (sep : List Char) : List Char → Bool
  | [] => sep.isEmpty
  | c :: t => startsWithL sep (c :: t) || hasSub sep t

/-- Prepend a character to the first chunk of a split result. -/
def consHead (c : Char) : List (List Char) → List (List Char)
  | [] => [[c]]
  | x :: xs => (c :: x) :: xs

/-- Fuel-indexed worker for Python `str.split(sep)` with `sep = d :: ds`:
scan left to right, cutting at each non-overlapping occurrence of the
separator.  The fuel dominates the input length, so the `0` arm is never
reached from `pySplit`. -/
def pySplitF (d : Char) (ds : List Char) : Nat → List Char → List (List Char)
  | _, [] => [[]]
  | 0, s => [s]
  | fuel + 1, c :: t =>
    if startsWithL (d :: ds) (c :: t) then
      [] :: pySplitF d ds fuel (t.drop ds.length)
    else
      consHead c (pySplitF d ds fuel t)

/-- Python `s.split(sep)` for a non-empty separator `d :: ds`. -/
def pySplit (d : Char) (ds : List Char) (s : List Char) : List (List Char) :=
  pySplitF d ds s.length s

/-- Drop leading whitespace (one side of Python `str.strip`). -/
def dropWs (s : List Char) : List Char := s.dropWhile Char.isWhitespace

/-- Python `str.strip()`: remove whitespace from both ends. -/
def pyStrip (s : List Char) : List Char := (dropWs (dropWs s).reverse).reverse

/-- The code-fence marker, three backquotes. -/
def fence3 : List Char := [btick, btick, btick]

/-- The characters of the language tag `json`. -/
def jsonTag : List Char := ['j', 's', 'o', 'n']

/-- The marker with language tag, seven characters. -/
def fenceJson : List Char := fence3 ++ jsonTag

/-- The reply-cleaning logic shared verbatim by all four agents
(`complexity_agent.analyze`, `cost_agent.estimate_costs`,
`quantum_agent.assess_feasibility`, `decision_agent.make_decision`):
strip, then if the text starts with a fence take the piece between the
markers, otherwise use the whole stripped text. -/
def extractPayload (response : List Char) : List Char :=
  let c := pyStrip response
  if startsWithL fenceJson c then
    (pySplit btick [btick, btick] ((pySplit btick ([btick, btick] ++ jsonTag) c).getD 1 [])).getD 0 []
  else if startsWithL fence3 c then
    (pySplit btick [btick, btick] ((pySplit btick [btick, btick] c).getD 1 [])).getD 0 []
  else
    c

/-! ## Python `round` on exact rationals

The agents call `round(x, n)` on values far from any half-way tie, where
IEEE rounding agrees with exact decimal round-half-to-even, so the rational
embedding below is faithful on every value the code reaches. -/

/-- Round-half-to-even to the nearest integer. -/
def roundHalfEven (x : ℚ) : ℤ :=
  let f := ⌊x⌋
  let r := x - f
  if r < 1 / 2 then f
  else if 1 / 2 < r then f + 1
  else if f % 2 = 0 then f else f + 1

/-- Python `round(x, d)` for `d` decimal digits. -/
def pyRound (x : ℚ) (d : ℕ) : ℚ := (roundHalfEven (x * 10 ^ d) : ℚ) / 10 ^ d

/-! ## Data model

Each record mirrors the dictionary shape a Python agent produces or parses.
`Option` marks keys that a parsed reply may omit; the deterministic fallback
dictionaries populate every key they write with `some`. -/

/-- An optimization problem as the orchestrator receives it
(`src/models/schemas.py`, serialized through `problem.dict()`).  Parameter
and constraint values are modelled as integers: the agents read only the
integer-valued parameters and the size of the constraints mapping. -/
structure Problem where
  problem_type : Option String
  subtype : Option String
  description : Option String
  parameters : List (String × ℤ)
  constraints : List (String × ℤ)
deriving DecidableEq

/-- The dictionary produced (or parsed) by the complexity agent. -/
structure ComplexityRaw where
  agent : Option String := none
  complexity_class : Option String := none
  time_complexity : Option String := none
  space_complexity : Option String := none
  problem_size : Option String := none
  variable_count : Option ℤ := none
  constraint_count : Option ℤ := none
  is_combinatorial : Option Bool := none
  scalability : Option String := none
  quantum_advantage_potential : Option String := none
  reasoning : Option String := none
  confidence : Option ℚ := none
deriving DecidableEq

/-- The `classical_cost` sub-dictionary of a cost analysis. -/
structure ClassicalCostDict where
  compute_hours : Option ℚ := none
  hourly_rate : Option ℚ := none
  total_cost : Option ℚ := none
  instance_type : Option String := none
deriving DecidableEq

/-- The `quantum_cost` sub-dictionary of a cost analysis. -/
structure QuantumCostDict where
  runtime_minutes : Option ℚ := none
  per_minute_rate : Option ℚ := none
  total_cost : Option ℚ := none
  device_type : Option String := none
deriving DecidableEq

/-- The `roi_analysis` sub-dictionary of a cost analysis. -/
structure RoiDict where
  cost_savings : Option ℚ := none
  savings_percentage : Option ℚ := none
  breakeven_runs : Option ℤ := none
  recommendation : Option String := none
deriving DecidableEq

/-- The dictionary produced (or parsed) by the cost agent. -/
structure CostDict where
  agent : Option String := none
  classical_cost : Option ClassicalCostDict := none
  quantum_cost : Option QuantumCostDict := none
  roi_analysis : Option RoiDict := none
  reasoning : Option String := none
  confidence : Option ℚ := none
deriving DecidableEq

/-- One entry of the device catalog assembled by `BraketService`. -/
structure DeviceDict where
  arn : String
  name : String
  type : String
  status : String
  provider : String
deriving DecidableEq

/-- The catalog returned by `BraketService.get_available_devices`. -/
structure DeviceCatalog where
  devices : List DeviceDict
  count : ℕ
  note : Option String := none
deriving DecidableEq

/-- A raw device record as returned by the cloud `search_devices` API. -/
structure RawDevice where
  deviceArn : String
  deviceName : String
  deviceType : String
  deviceStatus : String
  providerName : Option String
deriving DecidableEq

/-- The dictionary produced (or parsed) by the quantum feasibility agent. -/
structure FeasibilityDict where
  agent : Option String := none
  algorithm_recommendation : Option String := none
  qubit_requirements : Option ℤ := none
  circuit_depth : Option ℤ := none
  gate_count : Option ℤ := none
  is_feasible : Option Bool := none
  hardware_availability : Option String := none
  limitations : Option (List String) := none
  advantages : Option (List String) := none
  reasoning : Option String := none
  confidence : Option ℚ := none
  available_devices : Option DeviceCatalog := none
deriving DecidableEq

/-- Vote counters of the consensus computation. -/
structure Votes where
  quantum : ℕ
  classical : ℕ
deriving DecidableEq

/-- The `agent_consensus` dictionary built by `_calculate_consensus`. -/
structure Consensus where
  votes : Votes
  agreement_score : ℚ
  majority : String
deriving DecidableEq

/-- A pros/cons pair inside `trade_offs`. -/
structure ProsConsDict where
  pros : Option (List String) := none
  cons : Option (List String) := none
deriving DecidableEq

/-- The `trade_offs` sub-dictionary of a decision. -/
structure TradeOffsDict where
  classical : Option ProsConsDict := none
  quantum : Option ProsConsDict := none
deriving DecidableEq

/-- The `estimated_performance` sub-dictionary of a decision. -/
structure PerformanceDict where
  speedup : Option ℚ := none
  accuracy : Option String := none
  reliability : Option String := none
deriving DecidableEq

/-- The dictionary produced (or parsed) by the decision agent. -/
structure DecisionDict where
  agent : Option String := none
  final_recommendation : Option String := none
  confidence : Option ℚ := none
  primary_reasoning : Option String := none
  supporting_factors : Option (List String) := none
  trade_offs : Option TradeOffsDict := none
  actionable_next_steps : Option (List String) := none
  estimated_performance : Option PerformanceDict := none
  agent_consensus : Option Consensus := none
deriving DecidableEq

/-- A Python exception escaping a step or the orchestrator. -/
inductive PyError where
  | external (msg : String)
  | keyError (key : String)
  | attributeError (msg : String)
deriving DecidableEq

/-! ## Services -/

/-- The fixed simulator entry used when the device query fails
(`braket_service.get_available_devices`, except branch). -/
def defaultSimulator : DeviceDict :=
  { arn := "arn:aws:braket:::device/quantum-simulator/amazon/sv1"
    name := "SV1"
    type := "SIMULATOR"
    status := "ONLINE"
    provider := "Amazon Braket" }

/-- The single-entry catalog returned on any device-query failure. -/
def fallbackCatalog : DeviceCatalog :=
  { devices := [defaultSimulator]
    count := 1
    note := some "Showing default simulator - API call failed" }

/-- `BraketService.get_available_devices`: on a successful API reply the
entries are re-shaped (provider defaulting to `"AWS"`); on any exception the
static fallback catalog is returned instead of propagating the error. -/
def get_available_devices (api : Except String (List RawDevice)) : DeviceCatalog :=
  match api with
  | .ok ds =>
    { devices := ds.map fun d =>
        { arn := d.deviceArn
          name := d.deviceName
          type := d.deviceType
          status := d.deviceStatus
          provider := d.providerName.getD "AWS" }
      count := ds.length
      note := none }
  | .error _ => fallbackCatalog

/-! ## Complexity agent (`src/agents/complexity_agent.py`) -/

/-- `ComplexityAnalyzerAgent._fallback_analysis`. -/
def fallback_analysis (problem : Problem) : ComplexityRaw :=
  let size := (problem.parameters.lookup "num_assets").getD
    ((problem.parameters.lookup "num_molecules").getD 10)
  { agent := some "Complexity Analyzer"
    complexity_class := some "NP-Hard"
    time_complexity := some "O(2^n)"
    space_complexity := some "O(n)"
    problem_size := some (if size < 50 then "medium" else "large")
    variable_count := some size
    constraint_count := some (problem.constraints.length : ℤ)
    is_combinatorial := some true
    scalability := some "poor"
    quantum_advantage_potential := some "medium"
    reasoning := some "Heuristic analysis based on problem size"
    confidence := some 0.6 }

/-- `ComplexityAnalyzerAgent.analyze`: a raised transport error escapes the
`except json.JSONDecodeError` clause; an unparsable reply (decoder `none`)
takes the fallback; a parsed reply is returned with the agent tag added. -/
def analyze (decode : List Char → Option ComplexityRaw) (problem : Problem)
    (resp : Except String (List Char)) : Except PyError ComplexityRaw :=
  match resp with
  | .error e => .error (.external e)
  | .ok r =>
    match decode (extractPayload r) with
    | some a => .ok { a with agent := some "Complexity Analyzer" }
    | none => .ok (fallback_analysis problem)

/-! ## Cost agent (`src/agents/cost_agent.py`) -/

/-- The `ec2` pricing table from `CostEstimatorAgent.__init__`; `none`
models the `KeyError` raised by an unknown key. -/
def pricingEc2 : String → Option ℚ := fun s =>
  if s = "small" then some 0.096
  else if s = "medium" then some 0.768
  else if s = "large" then some 3.072
  else none

/-- The `simulator_sv1` per-minute rate from the pricing table. -/
def simulatorSv1Rate : ℚ := 0.075

/-- The compute-hours lookup of `_fallback_cost_estimate`; `none` models
the `KeyError` raised by an unknown `problem_size`. -/
def computeHoursTable : String → Option ℚ := fun s =>
  if s = "small" then some 0.5
  else if s = "medium" then some 2.0
  else if s = "large" then some 8.0
  else none

/-- `CostEstimatorAgent._fallback_cost_estimate`; `none` models the
`KeyError` escaping when `problem_size` is not a table key. -/
def fallback_cost_estimate (complexity : ComplexityRaw) : Option CostDict :=
  let problem_size := complexity.problem_size.getD "medium"
  match computeHoursTable problem_size, pricingEc2 problem_size with
  | some compute_hours, some rate =>
    let classical_cost := compute_hours * rate
    let quantum_minutes := compute_hours * 60 / 3
    let quantum_cost := quantum_minutes * simulatorSv1Rate
    let savings := classical_cost - quantum_cost
    some
      { agent := some "Cost Estimator"
        classical_cost := some
          { compute_hours := some compute_hours
            hourly_rate := some rate
            total_cost := some (pyRound classical_cost 2)
            instance_type := some ("EC2 " ++ problem_size) }
        quantum_cost := some
          { runtime_minutes := some (pyRound quantum_minutes 2)
            per_minute_rate := some simulatorSv1Rate
            total_cost := some (pyRound quantum_cost 2)
            device_type := some "AWS Braket SV1" }
        roi_analysis := some
          { cost_savings := some (pyRound savings 2)
            savings_percentage := some (pyRound (savings / classical_cost * 100) 1)
            breakeven_runs := some 1
            recommendation := some (if 0 < savings then "quantum" else "classical") }
        reasoning := some "Heuristic cost calculation based on problem size"
        confidence := some 0.7 }
  | _, _ => none

/-- `CostEstimatorAgent.estimate_costs`. -/
def estimate_costs (decode : List Char → Option CostDict) (complexity : ComplexityRaw)
    (resp : Except String (List Char)) : Except PyError CostDict :=
  match resp with
  | .error e => .error (.external e)
  | .ok r =>
    match decode (extractPayload r) with
    | some k => .ok { k with agent := some "Cost Estimator" }
    | none =>
      match fallback_cost_estimate complexity with
      | some k => .ok k
      | none => .error (.keyError (complexity.problem_size.getD "medium"))

/-! ## Quantum feasibility agent (`src/agents/quantum_agent.py`) -/

/-- `QuantumFeasibilityAgent._fallback_feasibility`. -/
def fallback_feasibility (complexity : ComplexityRaw) (devices : DeviceCatalog) :
    FeasibilityDict :=
  let num_vars := complexity.variable_count.getD 10
  { agent := some "Quantum Feasibility"
    algorithm_recommendation := some "QAOA"
    qubit_requirements := some num_vars
    circuit_depth := some (num_vars * 10)
    gate_count := some (num_vars * 50)
    is_feasible := some (decide (num_vars ≤ 34))
    hardware_availability := some "simulator"
    limitations := some ["Limited to 34 qubits on simulator",
      "No noise modeling in ideal simulation"]
    advantages := some ["Potential speedup for combinatorial problems",
      "Scalable to larger problems"]
    reasoning := some "Heuristic assessment based on qubit requirements"
    confidence := some 0.7
    available_devices := some devices }

/-- `QuantumFeasibilityAgent.assess_feasibility`: the catalog fetched at the
start of the step is attached to the result on both the parsed path and the
fallback path. -/
def assess_feasibility (decode : List Char → Option FeasibilityDict)
    (complexity : ComplexityRaw) (devices : DeviceCatalog)
    (resp : Except String (List Char)) : Except PyError FeasibilityDict :=
  match resp with
  | .error e => .error (.external e)
  | .ok r =>
    match decode (extractPayload r) with
    | some f =>
      .ok { f with
              agent := some "Quantum Feasibility"
              available_devices := some devices }
    | none => .ok (fallback_feasibility complexity devices)

/-! ## Decision agent (`src/agents/decision_agent.py`) -/

/-- Python `cost.get("roi_analysis", \x7b\x7d).get("recommendation")`. -/
def roiRec (cost : CostDict) : Option String :=
  cost.roi_analysis.bind fun r => r.recommendation

/-- Truthiness of `feasibility.get("is_feasible")`: an absent key is falsy. -/
def feasTruthy (feasibility : FeasibilityDict) : Bool :=
  feasibility.is_feasible = some true

/-- `DecisionAgent._calculate_consensus`: the three-signal plurality vote. -/
def calculate_consensus (complexity : ComplexityRaw) (cost : CostDict)
    (feasibility : FeasibilityDict) : Consensus :=
  let votes : Votes := ⟨0, 0⟩
  let votes :=
    if complexity.quantum_advantage_potential = some "high" then
      { votes with quantum := votes.quantum + 1 }
    else votes
  let votes :=
    if roiRec cost = some "quantum" then { votes with quantum := votes.quantum + 1 }
    else { votes with classical := votes.classical + 1 }
  let votes :=
    if feasTruthy feasibility then { votes with quantum := votes.quantum + 1 }
    else { votes with classical := votes.classical + 1 }
  let total : ℕ := votes.quantum + votes.classical
  { votes := votes
    agreement_score :=
      if 0 < total then ((max votes.quantum votes.classical : ℕ) : ℚ) / (total : ℚ) else 0
    majority := if votes.classical < votes.quantum then "quantum" else "classical" }

/-- Python `repr` of the votes dictionary, as interpolated into the
`primary_reasoning` f-string of the fallback decision. -/
def votesRepr (v : Votes) : String :=
  "\x7b\x27quantum\x27: " ++ toString v.quantum ++ ", \x27classical\x27: " ++ toString v.classical ++ "\x7d"

/-- Python f-string interpolation of a possibly absent string value. -/
def optStr : Option String → String
  | none => "None"
  | some s => s

/-- `DecisionAgent._fallback_decision`.  Note the fallback dictionary carries
no `estimated_performance` key. -/
def fallback_decision (complexity : ComplexityRaw) (cost : CostDict)
    (feasibility : FeasibilityDict) : DecisionDict :=
  let consensus := calculate_consensus complexity cost feasibility
  let recommendation := consensus.majority
  { agent := some "Decision Maker"
    final_recommendation := some recommendation
    confidence := some consensus.agreement_score
    primary_reasoning := some
      ("Based on majority vote from specialist agents: " ++ votesRepr consensus.votes)
    supporting_factors := some
      ["Complexity agent: " ++ optStr complexity.quantum_advantage_potential ++
        " quantum potential",
       "Cost agent: " ++ optStr (roiRec cost) ++ " recommended",
       "Feasibility: " ++ (if feasTruthy feasibility then "Feasible" else "Not feasible")]
    trade_offs := some
      { classical := some
          { pros := some ["Reliable", "Well-established"]
            cons := some ["May be slower"] }
        quantum := some
          { pros := some ["Potential speedup"]
            cons := some ["Hardware constraints"] } }
    actionable_next_steps := some
      ["Use " ++ recommendation ++ " algorithm",
       "Run comparative benchmarks",
       "Monitor performance metrics"]
    estimated_performance := none
    agent_consensus := some consensus }

/-- `DecisionAgent.make_decision`: a parsed decision gets the agent tag and
the consensus attached; an unparsable reply takes the fallback decision. -/
def make_decision (decode : List Char → Option DecisionDict)
    (complexity : ComplexityRaw) (cost : CostDict) (feasibility : FeasibilityDict)
    (resp : Except String (List Char)) : Except PyError DecisionDict :=
  match resp with
  | .error e => .error (.external e)
  | .ok r =>
    match decode (extractPayload r) with
    | some d =>
      .ok { d with
              agent := some "Decision Maker"
              agent_consensus := some (calculate_consensus complexity cost feasibility) }
    | none => .ok (fallback_decision complexity cost feasibility)

/-! ## Orchestrator (`src/agents/orchestrator.py`) -/

/-- The assembled report of `AgentOrchestrator.analyze_problem` (the
wall-clock timing metadata is not modelled). -/
structure Report where
  problem : Problem
  complexity : ComplexityRaw
  cost : CostDict
  feasibility : FeasibilityDict
  decision : DecisionDict
deriving DecidableEq

/-- `AgentOrchestrator.analyze_problem`: complexity, then cost, then
feasibility (which first obtains the device catalog), then decision.  After
the decision step the orchestrator interpolates
`final_decision.get("final_recommendation").upper()`, which raises
`AttributeError` when the key is absent. -/
def analyze_problem
    (decodeC : List Char → Option ComplexityRaw)
    (decodeK : List Char → Option CostDict)
    (decodeF : List Char → Option FeasibilityDict)
    (decodeD : List Char → Option DecisionDict)
    (problem : Problem)
    (braketApi : Except String (List RawDevice))
    (respC respK respF respD : Except String (List Char)) : Except PyError Report :=
  match analyze decodeC problem respC with
  | .error e => .error e
  | .ok complexity =>
    match estimate_costs decodeK complexity respK with
    | .error e => .error e
    | .ok cost =>
      let devices := get_available_devices braketApi
      match assess_feasibility decodeF complexity devices respF with
      | .error e => .error e
      | .ok feasibility =>
        match make_decision decodeD complexity cost feasibility respD with
        | .error e => .error e
        | .ok decision =>
          match decision.final_recommendation with
          | none => .error (.attributeError "\x27NoneType\x27 object has no attribute \x27upper\x27")
          | some _ => .ok ⟨problem, complexity, cost, feasibility, decision⟩

/-- The HTTP envelope produced by the `/analyze/multi-agent` route. -/
structure Envelope where
  status : ℕ
  success : Bool
deriving DecidableEq

/-- `routes.multi_agent_analysis`: a success envelope for a completed run,
a 500 failure envelope for any escaping exception. -/
def multi_agent_route (r : Except PyError Report) : Envelope :=
  match r with
  | .ok _ => ⟨200, true⟩
  | .error _ => ⟨500, false⟩

/-- Projection used to state end-to-end facts about a pipeline run. -/
def reportConsensus (r : Except PyError Report) : Option Consensus :=
  match r with
  | .ok rep => rep.decision.agent_consensus
  | .error _ => none

/-! ## Concrete fixtures used by the end-to-end scenarios -/

/-- A decoder stub whose reply always fails structured parsing. -/
def noDecode {α : Type} : List Char → Option α := fun _ => none

/-- An unparsable reply text. -/
def badReply : List Char := ['o', 'o', 'p', 's']

/-- A problem with no interesting content. -/
def emptyProblem : Problem :=
  { problem_type := none, subtype := none, description := none
    parameters := [], constraints := [] }

/-- The end-to-end scenario problem: financial portfolio optimization over
50 assets with an empty constraints mapping. -/
def sampleProblem : Problem :=
  { problem_type := some "financial"
    subtype := some "portfolio_optimization"
    description := none
    parameters := [("num_assets", 50)]
    constraints := [] }

/-- The complexity fallback profile for `sampleProblem`. -/
def complexity5 : ComplexityRaw :=
  { agent := some "Complexity Analyzer"
    complexity_class := some "NP-Hard"
    time_complexity := some "O(2^n)"
    space_complexity := some "O(n)"
    problem_size := some "large"
    variable_count := some 50
    constraint_count := some 0
    is_combinatorial := some true
    scalability := some "poor"
    quantum_advantage_potential := some "medium"
    reasoning := some "Heuristic analysis based on problem size"
    confidence := some 0.6 }

/-- The cost fallback dictionary for `problem_size = "small"`, with the
rounded figures the code stores. -/
def costSmall : CostDict :=
  { agent := some "Cost Estimator"
    classical_cost := some
      { compute_hours := some 0.5, hourly_rate := some 0.096
        total_cost := some 0.05, instance_type := some "EC2 small" }
    quantum_cost := some
      { runtime_minutes := some 10, per_minute_rate := some 0.075
        total_cost := some 0.75, device_type := some "AWS Braket SV1" }
    roi_analysis := some
      { cost_savings := some (-0.7), savings_percentage := some (-1462.5)
        breakeven_runs := some 1, recommendation := some "classical" }
    reasoning := some "Heuristic cost calculation based on problem size"
    confidence := some 0.7 }

/-- The cost fallback dictionary for `problem_size = "medium"`. -/
def costMedium : CostDict :=
  { agent := some "Cost Estimator"
    classical_cost := some
      { compute_hours := some 2.0, hourly_rate := some 0.768
        total_cost := some 1.54, instance_type := some "EC2 medium" }
    quantum_cost := some
      { runtime_minutes := some 40, per_minute_rate := some 0.075
        total_cost := some 3, device_type := some "AWS Braket SV1" }
    roi_analysis := some
      { cost_savings := some (-1.46), savings_percentage := some (-95.3)
        breakeven_runs := some 1, recommendation := some "classical" }
    reasoning := some "Heuristic cost calculation based on problem size"
    confidence := some 0.7 }

/-- The cost fallback dictionary for `problem_size = "large"`. -/
def costLarge : CostDict :=
  { agent := some "Cost Estimator"
    classical_cost := some
      { compute_hours := some 8.0, hourly_rate := some 3.072
        total_cost := some 24.58, instance_type := some "EC2 large" }
    quantum_cost := some
      { runtime_minutes := some 160, per_minute_rate := some 0.075
        total_cost := some 12, device_type := some "AWS Braket SV1" }
    roi_analysis := some
      { cost_savings := some 12.58, savings_percentage := some 51.2
        breakeven_runs := some 1, recommendation := some "quantum" }
    reasoning := some "Heuristic cost calculation based on problem size"
    confidence := some 0.7 }

/-- The feasibility fallback for `complexity5` with the static catalog. -/
def feas5 : FeasibilityDict := fallback_feasibility complexity5 fallbackCatalog

/-- The end-to-end pipeline run of the scenario: every reasoning reply is
unparsable and the device query fails. -/
def run5 : Except PyError Report :=
  analyze_problem noDecode noDecode noDecode noDecode sampleProblem
    (.error "no api") (.ok badReply) (.ok badReply) (.ok badReply) (.ok badReply)

/-- Projection: the complexity profile of a completed run. -/
def reportComplexity (r : Except PyError Report) : Option ComplexityRaw :=
  match r with
  | .ok rep => some rep.complexity
  | .error _ => none

/-- Projection: the cost profile of a completed run. -/
def reportCost (r : Except PyError Report) : Option CostDict :=
  match r with
  | .ok rep => some rep.cost
  | .error _ => none

/-- Projection: the feasibility profile of a completed run. -/
def reportFeasibility (r : Except PyError Report) : Option FeasibilityDict :=
  match r with
  | .ok rep => some rep.feasibility
  | .error _ => none

/-! ## Helper lemmas on the string primitives -/

theorem sw_self_append (a b : List Char) : startsWithL a (a ++ b) = true := by
  induction a with
  | nil => simp [startsWithL]
  | cons c t ih => simp [startsWithL, ih]

theorem sw_append_both (a b c : List Char) :
    startsWithL (a ++ b) (a ++ c) = startsWithL b c := by
  induction a with
  | nil => simp
  | cons x t ih => simp [startsWithL, ih]

theorem sw_mono_left (a b s : List Char) (h : startsWithL (a ++ b) s = true) :
    startsWithL a s = true := by
  induction a generalizing s with
  | nil => simp [startsWithL]
  | cons c t ih =>
    cases s with
    | nil => simp [startsWithL] at h
    | cons x xs =>
      simp only [List.cons_append, startsWithL, Bool.and_eq_true] at h ⊢
      exact ⟨h.1, ih xs h.2⟩

theorem sw_extend (a s t : List Char) (h : startsWithL a s = true) :
    startsWithL a (s ++ t) = true := by
  induction a generalizing s with
  | nil => simp [startsWithL]
  | cons c cs ih =>
    cases s with
    | nil => simp [startsWithL] at h
    | cons x xs =>
      simp only [startsWithL, Bool.and_eq_true, List.cons_append] at h ⊢
      exact ⟨h.1, ih xs h.2⟩

theorem pySplitF_stable (d : Char) (ds : List Char) :
    ∀ (L : ℕ) (s : List Char), s.length ≤ L → ∀ (n m : ℕ),
      s.length ≤ n → s.length ≤ m → pySplitF d ds n s = pySplitF d ds m s := by
  intro L
  induction L with
  | zero =>
    intro s hs n m _ _
    have : s = [] := List.length_eq_zero.mp (Nat.le_zero.mp hs)
    subst this
    cases n <;> cases m <;> simp [pySplitF]
  | succ L ih =>
    intro s hs n m hn hm
    cases s with
    | nil => cases n <;> cases m <;> simp [pySplitF]
    | cons c t =>
      cases n with
      | zero => simp at hn
      | succ n' =>
        cases m with
        | zero => simp at hm
        | succ m' =>
          have ht : t.length ≤ L := by
            simp only [List.length_cons] at hs
            omega
          have hn' : t.length ≤ n' := by
            simp only [List.length_cons] at hn
            omega
          have hm' : t.length ≤ m' := by
            simp only [List.length_cons] at hm
            omega
          simp only [pySplitF]
          by_cases hP : startsWithL (d :: ds) (c :: t) = true
          · rw [if_pos hP, if_pos hP]
            have hd : (t.drop ds.length).length ≤ t.length := by
              simp [List.length_drop]
            exact congrArg ([] :: ·)
              (ih (t.drop ds.length) (le_trans hd ht) n' m'
                (le_trans hd hn') (le_trans hd hm'))
          · rw [if_neg hP, if_neg hP]
            exact congrArg (consHead c) (ih t ht n' m' hn' hm')

theorem pySplit_nil (d : Char) (ds : List Char) : pySplit d ds [] = [[]] := rfl

theorem pySplit_cons (d : Char) (ds : List Char) (c : Char) (t : List Char) :
    pySplit d ds (c :: t) =
      if startsWithL (d :: ds) (c :: t) then [] :: pySplit d ds (t.drop ds.length)
      else consHead c (pySplit d ds t) := by
  unfold pySplit
  simp only [List.length_cons, pySplitF]
  by_cases hP : startsWithL (d :: ds) (c :: t) = true
  · rw [if_pos hP, if_pos hP]
    have hd : (t.drop ds.length).length ≤ t.length := by simp [List.length_drop]
    exact congrArg ([] :: ·)
      (pySplitF_stable d ds t.length (t.drop ds.length) hd t.length
        (t.drop ds.length).length hd le_rfl)
  · rw [if_neg hP, if_neg hP]

theorem pySplit_head_match (d : Char) (ds t : List Char) :
    pySplit d ds ((d :: ds) ++ t) = [] :: pySplit d ds t := by
  rw [List.cons_append, pySplit_cons, if_pos (by simpa using sw_self_append (d :: ds) t)]
  congr 1
  rw [List.drop_left]

theorem pySplit_no_occ (d : Char) (ds s : List Char)
    (h : hasSub (d :: ds) s = false) : pySplit d ds s = [s] := by
  induction s with
  | nil => exact pySplit_nil d ds
  | cons c t ih =>
    simp only [hasSub, Bool.or_eq_false_iff] at h
    rw [pySplit_cons, if_neg (by simp [h.1]), ih h.2]
    rfl

theorem hasSub_append_left (sep a b : List Char) (h : hasSub sep a = true) :
    hasSub sep (a ++ b) = true := by
  induction a with
  | nil =>
    simp only [hasSub, List.isEmpty_iff] at h
    subst h
    cases b with
    | nil => rfl
    | cons c t => simp [hasSub, startsWithL]
  | cons c t ih =>
    simp only [hasSub, Bool.or_eq_true] at h ⊢
    rcases h with h | h
    · exact Or.inl (by simpa using sw_extend sep (c :: t) b h)
    · exact Or.inr (ih h)

theorem sw_take (a s : List Char) : startsWithL a s = startsWithL a (s.take a.length) := by
  induction a generalizing s with
  | nil => simp [startsWithL]
  | cons c t ih =>
    cases s with
    | nil => simp
    | cons x xs => simp [startsWithL, List.take, ih xs]

theorem take3_eq (c : Char) (p r : List Char) :
    (c :: (p ++ fence3 ++ r)).take 3 = ((c :: p) ++ [btick, btick]).take 3 := by
  match p with
  | [] => simp [fence3]
  | [a] => simp [fence3]
  | a :: a2 :: t => simp

theorem not_fence_at_mid (c : Char) (p r : List Char)
    (h : hasSub fence3 ((c :: p) ++ [btick, btick]) = false) :
    startsWithL fence3 (c :: (p ++ fence3 ++ r)) = false := by
  have h1 : startsWithL fence3 ((c :: p) ++ [btick, btick]) = false := by
    rw [List.cons_append] at h
    simp only [hasSub, Bool.or_eq_false_iff] at h
    rw [List.cons_append]
    exact h.1
  rw [sw_take] at h1
  rw [sw_take]
  rw [show fence3.length = 3 from rfl] at h1 ⊢
  rw [take3_eq]
  exact h1

theorem pySplit_fence_boundary (p r : List Char)
    (h : hasSub fence3 (p ++ [btick, btick]) = false) :
    pySplit btick [btick, btick] (p ++ fence3 ++ r) = p :: pySplit btick [btick, btick] r := by
  induction p with
  | nil =>
    simpa using pySplit_head_match btick [btick, btick] r
  | cons c p' ih =>
    have h' : hasSub fence3 (p' ++ [btick, btick]) = false := by
      simp only [List.cons_append, hasSub, Bool.or_eq_false_iff] at h
      exact h.2
    have hpre : startsWithL fence3 (c :: (p' ++ fence3 ++ r)) = false :=
      not_fence_at_mid c p' r h
    have hstep : pySplit btick [btick, btick] (c :: (p' ++ fence3 ++ r)) =
        consHead c (pySplit btick [btick, btick] (p' ++ fence3 ++ r)) := by
      rw [pySplit_cons]
      rw [if_neg (by rw [show (btick :: [btick, btick]) = fence3 from rfl, hpre]; simp)]
    simp only [List.cons_append]
    rw [hstep, ih h']
    rfl

theorem no_fenceJson_in_payload (p : List Char)
    (h : hasSub fence3 (p ++ [btick, btick]) = false) :
    hasSub fenceJson (p ++ fence3) = false := by
  induction p with
  | nil => decide
  | cons c p' ih =>
    have h' : hasSub fence3 (p' ++ [btick, btick]) = false := by
      simp only [List.cons_append, hasSub, Bool.or_eq_false_iff] at h
      exact h.2
    have hpre : startsWithL fence3 (c :: (p' ++ fence3 ++ [])) = false :=
      not_fence_at_mid c p' [] h
    rw [List.append_nil] at hpre
    simp only [List.cons_append, hasSub, Bool.or_eq_false_iff]
    refine ⟨?_, ih h'⟩
    by_contra hx
    rw [Bool.not_eq_false] at hx
    have hy := sw_mono_left fence3 jsonTag (c :: (p' ++ fence3)) (by simpa [fenceJson] using hx)
    rw [hy] at hpre
    simp at hpre

theorem dropWs_btick (t : List Char) : dropWs (btick :: t) = btick :: t := by
  have hb : btick.isWhitespace = false := by decide
  simp [dropWs, List.dropWhile_cons, hb]

theorem pyStrip_sandwich (mid : List Char) :
    pyStrip (btick :: (mid ++ [btick])) = btick :: (mid ++ [btick]) := by
  unfold pyStrip
  rw [dropWs_btick]
  have hrev : (btick :: (mid ++ [btick])).reverse = btick :: (mid.reverse ++ [btick]) := by
    simp
  rw [hrev, dropWs_btick, ← hrev, List.reverse_reverse]

theorem sw_json_payload (p : List Char) (hj : startsWithL jsonTag p = false) :
    startsWithL jsonTag (p ++ fence3) = false := by
  match p with
  | [] => decide
  | [a] =>
    simp only [List.cons_append, List.nil_append, jsonTag, startsWithL, fence3]
    rw [show (('s' : Char) == btick) = false from by decide]
    simp
  | [a, b] =>
    simp only [List.cons_append, List.nil_append, jsonTag, startsWithL, fence3]
    rw [show (('o' : Char) == btick) = false from by decide]
    simp
  | [a, b, c] =>
    simp only [List.cons_append, List.nil_append, jsonTag, startsWithL, fence3]
    rw [show (('n' : Char) == btick) = false from by decide]
    simp
  | a :: b :: c :: d :: t =>
    simp only [List.cons_append, jsonTag, startsWithL] at hj ⊢
    simpa using hj

/-- Round trip of the shared payload extraction, `\x60\x60\x60json` form:
if the payload contains no fence marker and does not end in a backquote,
the fenced wrapping is removed exactly. -/
theorem extract_json_fenced (p : List Char)
    (h : hasSub fence3 (p ++ [btick, btick]) = false) :
    extractPayload (fenceJson ++ p ++ fence3) = p := by
  have hshape : fenceJson ++ p ++ fence3 =
      btick :: (([btick, btick] ++ jsonTag ++ p ++ [btick, btick]) ++ [btick]) := by
    simp [fenceJson, fence3, jsonTag]
  unfold extractPayload
  rw [show pyStrip (fenceJson ++ p ++ fence3) = fenceJson ++ p ++ fence3 by
    rw [hshape]; exact pyStrip_sandwich _]
  have hsw : startsWithL fenceJson (fenceJson ++ p ++ fence3) = true := by
    rw [List.append_assoc]
    exact sw_self_append fenceJson (p ++ fence3)
  rw [if_pos hsw]
  have hsep : fenceJson = btick :: ([btick, btick] ++ jsonTag) := by
    simp [fenceJson, fence3, jsonTag]
  have h1 : pySplit btick ([btick, btick] ++ jsonTag) (fenceJson ++ p ++ fence3) =
      [] :: pySplit btick ([btick, btick] ++ jsonTag) (p ++ fence3) := by
    rw [List.append_assoc, hsep]
    exact pySplit_head_match btick ([btick, btick] ++ jsonTag) (p ++ fence3)
  have h2 : pySplit btick ([btick, btick] ++ jsonTag) (p ++ fence3) = [p ++ fence3] := by
    apply pySplit_no_occ
    rw [← hsep]
    exact no_fenceJson_in_payload p h
  rw [h1, h2]
  have h3 : pySplit btick [btick, btick] (p ++ fence3) =
      p :: pySplit btick [btick, btick] [] := by
    have := pySplit_fence_boundary p [] h
    rwa [List.append_nil] at this
  simp only [List.getD_cons_succ, List.getD_cons_zero]
  rw [h3]
  rfl

/-- Round trip of the shared payload extraction, plain-fence form: as above,
provided the payload additionally does not begin with the language tag
`json` (otherwise the `\x60\x60\x60json` branch is taken by mistake). -/
theorem extract_plain_fenced (p : List Char)
    (h : hasSub fence3 (p ++ [btick, btick]) = false)
    (hj : startsWithL jsonTag p = false) :
    extractPayload (fence3 ++ p ++ fence3) = p := by
  have hshape : fence3 ++ p ++ fence3 =
      btick :: (([btick, btick] ++ p ++ [btick, btick]) ++ [btick]) := by
    simp [fence3]
  unfold extractPayload
  rw [show pyStrip (fence3 ++ p ++ fence3) = fence3 ++ p ++ fence3 by
    rw [hshape]; exact pyStrip_sandwich _]
  rw [List.append_assoc]
  have hjf : startsWithL fenceJson (fence3 ++ (p ++ fence3)) = false := by
    rw [show fenceJson = fence3 ++ jsonTag from rfl,
      sw_append_both fence3 jsonTag (p ++ fence3)]
    exact sw_json_payload p hj
  rw [if_neg (by simp [hjf])]
  have hsw : startsWithL fence3 (fence3 ++ (p ++ fence3)) = true :=
    sw_self_append fence3 (p ++ fence3)
  rw [if_pos hsw]
  have h1 : pySplit btick [btick, btick] (fence3 ++ (p ++ fence3)) =
      [] :: (p :: pySplit btick [btick, btick] []) := by
    rw [show fence3 ++ (p ++ fence3) = (btick :: [btick, btick]) ++ (p ++ fence3) from rfl,
      pySplit_head_match btick [btick, btick] (p ++ fence3)]
    congr 1
    have hb := pySplit_fence_boundary p [] h
    rwa [List.append_nil] at hb
  rw [h1]
  simp only [List.getD_cons_succ, List.getD_cons_zero]
  have hp : hasSub fence3 p = false := by
    cases hx : hasSub fence3 p
    · rfl
    · rw [hasSub_append_left fence3 p [btick, btick] hx] at h
      simp at h
  rw [pySplit_no_occ btick [btick, btick] p (by rw [show (btick :: [btick, btick]) = fence3 from rfl, hp])]
  rfl

/-- When the stripped reply does not start with a fence, the whole stripped
reply is the payload. -/
theorem extract_no_fence (r : List Char)
    (h : startsWithL fence3 (pyStrip r) = false) :
    extractPayload r = pyStrip r := by
  unfold extractPayload
  have hj : startsWithL fenceJson (pyStrip r) = false := by
    cases hx : startsWithL fenceJson (pyStrip r)
    · rfl
    · have := sw_mono_left fence3 jsonTag (pyStrip r) (by simpa [fenceJson] using hx)
      rw [this] at h
      simp at h
  rw [if_neg (by simp [hj]), if_neg (by simp [h])]

/-! ## Helper lemmas on rounding and the cost fallback -/

theorem pyRound_eq_low (x : ℚ) (d : ℕ) (n : ℤ)
    (h1 : (n : ℚ) ≤ x * 10 ^ d) (h2 : x * 10 ^ d - n < 1 / 2) :
    pyRound x d = (n : ℚ) / 10 ^ d := by
  have hf : ⌊x * 10 ^ d⌋ = n := by
    rw [Int.floor_eq_iff]
    exact ⟨h1, by linarith⟩
  unfold pyRound roundHalfEven
  rw [hf, if_pos (by linarith)]

theorem pyRound_eq_high (x : ℚ) (d : ℕ) (n : ℤ)
    (h1 : 1 / 2 < x * 10 ^ d - n) (h2 : x * 10 ^ d < n + 1) :
    pyRound x d = ((n + 1 : ℤ) : ℚ) / 10 ^ d := by
  have hf : ⌊x * 10 ^ d⌋ = n := by
    rw [Int.floor_eq_iff]
    exact ⟨by linarith, by linarith⟩
  unfold pyRound roundHalfEven
  rw [hf, if_neg (by linarith), if_pos h1]

theorem fallback_cost_small (c : ComplexityRaw)
    (h : c.problem_size.getD "medium" = "small") :
    fallback_cost_estimate c = some costSmall := by
  have e1 : pyRound ((0.5 : ℚ) * 0.096) 2 = 0.05 := by
    rw [show ((0.05 : ℚ)) = ((4 + 1 : ℤ) : ℚ) / 10 ^ 2 by norm_num]
    apply pyRound_eq_high <;> norm_num
  have e2 : pyRound ((0.5 : ℚ) * 60 / 3) 2 = 10 := by
    rw [show ((10 : ℚ)) = ((1000 : ℤ) : ℚ) / 10 ^ 2 by norm_num]
    apply pyRound_eq_low <;> norm_num
  have e3 : pyRound ((0.5 : ℚ) * 60 / 3 * simulatorSv1Rate) 2 = 0.75 := by
    rw [show ((0.75 : ℚ)) = ((75 : ℤ) : ℚ) / 10 ^ 2 by norm_num]
    apply pyRound_eq_low <;> norm_num [simulatorSv1Rate]
  have e4 : pyRound ((0.5 : ℚ) * 0.096 - 0.5 * 60 / 3 * simulatorSv1Rate) 2 = -0.7 := by
    rw [show ((-0.7 : ℚ)) = ((-71 + 1 : ℤ) : ℚ) / 10 ^ 2 by norm_num]
    apply pyRound_eq_high <;> norm_num [simulatorSv1Rate]
  have e5 : pyRound (((0.5 : ℚ) * 0.096 - 0.5 * 60 / 3 * simulatorSv1Rate) /
      (0.5 * 0.096) * 100) 1 = -1462.5 := by
    rw [show ((-1462.5 : ℚ)) = ((-14625 : ℤ) : ℚ) / 10 ^ 1 by norm_num]
    apply pyRound_eq_low <;> norm_num [simulatorSv1Rate]
  have hct : computeHoursTable "small" = some 0.5 := by
    unfold computeHoursTable
    rw [if_pos rfl]
  have hpr : pricingEc2 "small" = some 0.096 := by
    unfold pricingEc2
    rw [if_pos rfl]
  simp only [fallback_cost_estimate, h, hct, hpr]
  rw [e1, e2, e3, e4, e5, if_neg (by norm_num [simulatorSv1Rate])]
  rfl

theorem fallback_cost_medium (c : ComplexityRaw)
    (h : c.problem_size.getD "medium" = "medium") :
    fallback_cost_estimate c = some costMedium := by
  have e1 : pyRound ((2.0 : ℚ) * 0.768) 2 = 1.54 := by
    rw [show ((1.54 : ℚ)) = ((153 + 1 : ℤ) : ℚ) / 10 ^ 2 by norm_num]
    apply pyRound_eq_high <;> norm_num
  have e2 : pyRound ((2.0 : ℚ) * 60 / 3) 2 = 40 := by
    rw [show ((40 : ℚ)) = ((4000 : ℤ) : ℚ) / 10 ^ 2 by norm_num]
    apply pyRound_eq_low <;> norm_num
  have e3 : pyRound ((2.0 : ℚ) * 60 / 3 * simulatorSv1Rate) 2 = 3 := by
    rw [show ((3 : ℚ)) = ((300 : ℤ) : ℚ) / 10 ^ 2 by norm_num]
    apply pyRound_eq_low <;> norm_num [simulatorSv1Rate]
  have e4 : pyRound ((2.0 : ℚ) * 0.768 - 2.0 * 60 / 3 * simulatorSv1Rate) 2 = -1.46 := by
    rw [show ((-1.46 : ℚ)) = ((-147 + 1 : ℤ) : ℚ) / 10 ^ 2 by norm_num]
    apply pyRound_eq_high <;> norm_num [simulatorSv1Rate]
  have e5 : pyRound (((2.0 : ℚ) * 0.768 - 2.0 * 60 / 3 * simulatorSv1Rate) /
      (2.0 * 0.768) * 100) 1 = -95.3 := by
    rw [show ((-95.3 : ℚ)) = ((-954 + 1 : ℤ) : ℚ) / 10 ^ 1 by norm_num]
    apply pyRound_eq_high <;> norm_num [simulatorSv1Rate]
  have hct : computeHoursTable "medium" = some 2.0 := by
    unfold computeHoursTable
    rw [if_neg (by decide), if_pos rfl]
  have hpr : pricingEc2 "medium" = some 0.768 := by
    unfold pricingEc2
    rw [if_neg (by decide), if_pos rfl]
  simp only [fallback_cost_estimate, h, hct, hpr]
  rw [e1, e2, e3, e4, e5, if_neg (by norm_num [simulatorSv1Rate])]
  rfl

theorem fallback_cost_large (c : ComplexityRaw)
    (h : c.problem_size.getD "medium" = "large") :
    fallback_cost_estimate c = some costLarge := by
  have e1 : pyRound ((8.0 : ℚ) * 3.072) 2 = 24.58 := by
    rw [show ((24.58 : ℚ)) = ((2457 + 1 : ℤ) : ℚ) / 10 ^ 2 by norm_num]
    apply pyRound_eq_high <;> norm_num
  have e2 : pyRound ((8.0 : ℚ) * 60 / 3) 2 = 160 := by
    rw [show ((160 : ℚ)) = ((16000 : ℤ) : ℚ) / 10 ^ 2 by norm_num]
    apply pyRound_eq_low <;> norm_num
  have e3 : pyRound ((8.0 : ℚ) * 60 / 3 * simulatorSv1Rate) 2 = 12 := by
    rw [show ((12 : ℚ)) = ((1200 : ℤ) : ℚ) / 10 ^ 2 by norm_num]
    apply pyRound_eq_low <;> norm_num [simulatorSv1Rate]
  have e4 : pyRound ((8.0 : ℚ) * 3.072 - 8.0 * 60 / 3 * simulatorSv1Rate) 2 = 12.58 := by
    rw [show ((12.58 : ℚ)) = ((1257 + 1 : ℤ) : ℚ) / 10 ^ 2 by norm_num]
    apply pyRound_eq_high <;> norm_num [simulatorSv1Rate]
  have e5 : pyRound (((8.0 : ℚ) * 3.072 - 8.0 * 60 / 3 * simulatorSv1Rate) /
      (8.0 * 3.072) * 100) 1 = 51.2 := by
    rw [show ((51.2 : ℚ)) = ((511 + 1 : ℤ) : ℚ) / 10 ^ 1 by norm_num]
    apply pyRound_eq_high <;> norm_num [simulatorSv1Rate]
  have hct : computeHoursTable "large" = some 8.0 := by
    unfold computeHoursTable
    rw [if_neg (by decide), if_neg (by decide), if_pos rfl]
  have hpr : pricingEc2 "large" = some 3.072 := by
    unfold pricingEc2
    rw [if_neg (by decide), if_neg (by decide), if_pos rfl]
  simp only [fallback_cost_estimate, h, hct, hpr]
  rw [e1, e2, e3, e4, e5, if_pos (by norm_num [simulatorSv1Rate])]
  rfl

/-! ## Claim theorems -/

/-- C7: whenever the device catalog query fails, `get_available_devices`
returns (never raises) a catalog with exactly one device, of type
`SIMULATOR` with status `ONLINE`, and count 1 — never an empty list. -/
theorem claim_C7_device_fallback (msg : String) :
    get_available_devices (.error msg) = fallbackCatalog ∧
    fallbackCatalog.devices = [defaultSimulator] ∧
    defaultSimulator.type = "SIMULATOR" ∧
    defaultSimulator.status = "ONLINE" ∧
    fallbackCatalog.count = 1 ∧
    fallbackCatalog.devices ≠ [] := by
  refine ⟨rfl, rfl, rfl, rfl, rfl, ?_⟩
  simp [fallbackCatalog]

/-- C2 counterexample: a reply that is well-formed JSON but misses every
required field (decoded as the empty dictionary) is NOT replaced by the
deterministic fallback — `analyze` only falls back on a JSON decode error,
so the claim as stated is false. -/
theorem claim_C2_counterexample :
    analyze (fun _ => some {}) emptyProblem (.ok badReply)
      = .ok { ({} : ComplexityRaw) with agent := some "Complexity Analyzer" } ∧
    (fallback_analysis emptyProblem).confidence = some 0.6 ∧
    ({ ({} : ComplexityRaw) with agent := some "Complexity Analyzer" } : ComplexityRaw).confidence
      = none ∧
    analyze (fun _ => some {}) emptyProblem (.ok badReply)
      ≠ .ok (fallback_analysis emptyProblem) := by
  refine ⟨rfl, rfl, rfl, ?_⟩
  intro hx
  simp only [analyze] at hx
  have h1 := congrArg ComplexityRaw.confidence (by simpa using hx)
  simp [fallback_analysis] at h1

/-- C2 (amended): the step falls back exactly when JSON decoding fails, in
which case it returns the deterministic fallback profile with the claimed
field values, and never fails; well-formed JSON that merely misses fields is
returned as parsed with only the agent tag added. -/
theorem claim_C2_amended (decode : List Char → Option ComplexityRaw) (problem : Problem)
    (r : List Char) :
    (decode (extractPayload r) = none →
      analyze decode problem (.ok r) = .ok (fallback_analysis problem)) ∧
    (∀ a, decode (extractPayload r) = some a →
      analyze decode problem (.ok r) = .ok { a with agent := some "Complexity Analyzer" }) ∧
    (fallback_analysis problem).variable_count
      = some ((problem.parameters.lookup "num_assets").getD
          ((problem.parameters.lookup "num_molecules").getD 10)) ∧
    (fallback_analysis problem).problem_size
      = some (if (problem.parameters.lookup "num_assets").getD
          ((problem.parameters.lookup "num_molecules").getD 10) < 50
          then "medium" else "large") ∧
    (fallback_analysis problem).complexity_class = some "NP-Hard" ∧
    (fallback_analysis problem).constraint_count = some (problem.constraints.length : ℤ) ∧
    (fallback_analysis problem).confidence = some 0.6 := by
  refine ⟨?_, ?_, rfl, rfl, rfl, rfl, rfl⟩
  · intro h
    simp only [analyze, h]
  · intro a h
    simp only [analyze, h]

/-- C2 witness: the fallback branch at a concrete unparsable reply. -/
theorem claim_C2_witness :
    analyze noDecode emptyProblem (.ok badReply) = .ok (fallback_analysis emptyProblem) :=
  (claim_C2_amended noDecode emptyProblem badReply).1 rfl

/-- C4: the feasibility fallback has the claimed fields (qubit requirements
from `variable_count` with default 10, feasibility iff at most 34 qubits,
depth ×10, gates ×50, QAOA, simulator, confidence 0.7), and the catalog
obtained at the start of the step is attached on both paths. -/
theorem claim_C4_feasibility (decode : List Char → Option FeasibilityDict)
    (complexity : ComplexityRaw) (devices : DeviceCatalog) (r : List Char) :
    (decode (extractPayload r) = none →
      assess_feasibility decode complexity devices (.ok r)
        = .ok (fallback_feasibility complexity devices)) ∧
    (∀ f, decode (extractPayload r) = some f →
      assess_feasibility decode complexity devices (.ok r)
        = .ok { f with agent := some "Quantum Feasibility", available_devices := some devices }) ∧
    (fallback_feasibility complexity devices).qubit_requirements
      = some (complexity.variable_count.getD 10) ∧
    ((fallback_feasibility complexity devices).is_feasible = some true
      ↔ complexity.variable_count.getD 10 ≤ 34) ∧
    (fallback_feasibility complexity devices).circuit_depth
      = some (complexity.variable_count.getD 10 * 10) ∧
    (fallback_feasibility complexity devices).gate_count
      = some (complexity.variable_count.getD 10 * 50) ∧
    (fallback_feasibility complexity devices).algorithm_recommendation = some "QAOA" ∧
    (fallback_feasibility complexity devices).hardware_availability = some "simulator" ∧
    (fallback_feasibility complexity devices).confidence = some 0.7 ∧
    (fallback_feasibility complexity devices).available_devices = some devices := by
  refine ⟨?_, ?_, rfl, ?_, rfl, rfl, rfl, rfl, rfl, rfl⟩
  · intro h
    simp only [assess_feasibility, h]
  · intro f h
    simp only [assess_feasibility, h]
  · simp [fallback_feasibility]

/-- C4 witness: the fallback branch at a concrete unparsable reply. -/
theorem claim_C4_witness :
    assess_feasibility noDecode {} fallbackCatalog (.ok badReply)
      = .ok (fallback_feasibility {} fallbackCatalog) :=
  (claim_C4_feasibility noDecode {} fallbackCatalog badReply).1 rfl

/-- C3 counterexample: the stored `roi_analysis.cost_savings` of the small
fallback is the rounded `-0.7`, not the claimed exact difference
`classical − quantum = -0.702`, so the claimed equations fail on the stored
fields. -/
theorem claim_C3_counterexample :
    ((fallback_cost_estimate { problem_size := some "small" }).bind
        (fun k => k.roi_analysis)).bind (fun roi => roi.cost_savings) = some (-0.7) ∧
    (0.5 * 0.096 - 0.5 * 60 / 3 * simulatorSv1Rate : ℚ) = -0.702 ∧
    (-0.7 : ℚ) ≠ -0.702 := by
  refine ⟨?_, by norm_num [simulatorSv1Rate], by norm_num⟩
  rw [fallback_cost_small { problem_size := some "small" } rfl]
  rfl

/-- C3 (amended): the fallback is total on sizes small/medium/large
(defaulting to medium when absent) and stores the claimed quantities, with
the money fields rounded to 2 decimals (runtime minutes likewise, and the
percentage to 1 decimal); the recommendation compares the unrounded
savings with zero, breakeven is 1 and confidence 0.7. -/
theorem claim_C3_amended (c : ComplexityRaw)
    (h : c.problem_size.getD "medium" = "small" ∨ c.problem_size.getD "medium" = "medium" ∨
      c.problem_size.getD "medium" = "large") :
    (∃ ch rate : ℚ, computeHoursTable (c.problem_size.getD "medium") = some ch ∧
      pricingEc2 (c.problem_size.getD "medium") = some rate ∧
      fallback_cost_estimate c = some
        { agent := some "Cost Estimator"
          classical_cost := some
            { compute_hours := some ch, hourly_rate := some rate
              total_cost := some (pyRound (ch * rate) 2)
              instance_type := some ("EC2 " ++ c.problem_size.getD "medium") }
          quantum_cost := some
            { runtime_minutes := some (pyRound (ch * 60 / 3) 2)
              per_minute_rate := some simulatorSv1Rate
              total_cost := some (pyRound (ch * 60 / 3 * simulatorSv1Rate) 2)
              device_type := some "AWS Braket SV1" }
          roi_analysis := some
            { cost_savings := some (pyRound (ch * rate - ch * 60 / 3 * simulatorSv1Rate) 2)
              savings_percentage := some
                (pyRound ((ch * rate - ch * 60 / 3 * simulatorSv1Rate) / (ch * rate) * 100) 1)
              breakeven_runs := some 1
              recommendation := some
                (if 0 < ch * rate - ch * 60 / 3 * simulatorSv1Rate
                 then "quantum" else "classical") }
          reasoning := some "Heuristic cost calculation based on problem size"
          confidence := some 0.7 }) ∧
    computeHoursTable "small" = some 0.5 ∧
    computeHoursTable "medium" = some 2.0 ∧
    computeHoursTable "large" = some 8.0 := by
  refine ⟨?_, by unfold computeHoursTable; rw [if_pos rfl],
    by unfold computeHoursTable; rw [if_neg (by decide), if_pos rfl],
    by unfold computeHoursTable; rw [if_neg (by decide), if_neg (by decide), if_pos rfl]⟩
  rcases h with h | h | h
  · refine ⟨0.5, 0.096, ?_, ?_, ?_⟩
    · rw [h]
      unfold computeHoursTable
      rw [if_pos rfl]
    · rw [h]
      unfold pricingEc2
      rw [if_pos rfl]
    · have hct : computeHoursTable "small" = some 0.5 := by
        unfold computeHoursTable
        rw [if_pos rfl]
      have hpr : pricingEc2 "small" = some 0.096 := by
        unfold pricingEc2
        rw [if_pos rfl]
      simp only [fallback_cost_estimate, h, hct, hpr]
  · refine ⟨2.0, 0.768, ?_, ?_, ?_⟩
    · rw [h]
      unfold computeHoursTable
      rw [if_neg (by decide), if_pos rfl]
    · rw [h]
      unfold pricingEc2
      rw [if_neg (by decide), if_pos rfl]
    · have hct : computeHoursTable "medium" = some 2.0 := by
        unfold computeHoursTable
        rw [if_neg (by decide), if_pos rfl]
      have hpr : pricingEc2 "medium" = some 0.768 := by
        unfold pricingEc2
        rw [if_neg (by decide), if_pos rfl]
      simp only [fallback_cost_estimate, h, hct, hpr]
  · refine ⟨8.0, 3.072, ?_, ?_, ?_⟩
    · rw [h]
      unfold computeHoursTable
      rw [if_neg (by decide), if_neg (by decide), if_pos rfl]
    · rw [h]
      unfold pricingEc2
      rw [if_neg (by decide), if_neg (by decide), if_pos rfl]
    · have hct : computeHoursTable "large" = some 8.0 := by
        unfold computeHoursTable
        rw [if_neg (by decide), if_neg (by decide), if_pos rfl]
      have hpr : pricingEc2 "large" = some 3.072 := by
        unfold pricingEc2
        rw [if_neg (by decide), if_neg (by decide), if_pos rfl]
      simp only [fallback_cost_estimate, h, hct, hpr]

/-- C3 witness: the amended claim instantiated at a large problem. -/
theorem claim_C3_witness :
    ∃ k : CostDict, fallback_cost_estimate { problem_size := some "large" } = some k := by
  obtain ⟨ch, rate, -, -, hk⟩ :=
    (claim_C3_amended { problem_size := some "large" } (Or.inr (Or.inr rfl))).1
  exact ⟨_, hk⟩

/-- C10: with the hard-coded prices the fallback recommendation is
`quantum` exactly for `problem_size = "large"`: the unrounded savings are
negative for small and medium and positive for large. -/
theorem claim_C10_roi (c : ComplexityRaw)
    (h : c.problem_size.getD "medium" = "small" ∨ c.problem_size.getD "medium" = "medium" ∨
      c.problem_size.getD "medium" = "large") :
    ((((fallback_cost_estimate c).bind (fun k => k.roi_analysis)).bind
        (fun roi => roi.recommendation) = some "quantum")
      ↔ c.problem_size.getD "medium" = "large") ∧
    (0.5 * 0.096 - 0.5 * 60 / 3 * simulatorSv1Rate : ℚ) < 0 ∧
    (2.0 * 0.768 - 2.0 * 60 / 3 * simulatorSv1Rate : ℚ) < 0 ∧
    (0 : ℚ) < 8.0 * 3.072 - 8.0 * 60 / 3 * simulatorSv1Rate := by
  refine ⟨?_, by norm_num [simulatorSv1Rate], by norm_num [simulatorSv1Rate],
    by norm_num [simulatorSv1Rate]⟩
  rcases h with h | h | h
  · rw [fallback_cost_small c h, h]
    decide
  · rw [fallback_cost_medium c h, h]
    decide
  · rw [fallback_cost_large c h, h]
    decide

/-- C10 witness: a large profile gets the quantum recommendation. -/
theorem claim_C10_witness :
    ((fallback_cost_estimate { problem_size := some "large" }).bind
      (fun k => k.roi_analysis)).bind (fun roi => roi.recommendation) = some "quantum" :=
  ((claim_C10_roi { problem_size := some "large" } (Or.inr (Or.inr rfl))).1).mpr rfl

/-- C9 counterexample: the payload `x\x60\x60` contains no fence marker,
yet extracting it from its `\x60\x60\x60json` wrapping yields `x`, not the
payload — the trailing backquotes merge with the closing fence, so the
round trip claimed for every fence-free payload fails. -/
theorem claim_C9_counterexample :
    hasSub fence3 ['x', btick, btick] = false ∧
    extractPayload (fenceJson ++ ['x', btick, btick] ++ fence3) = ['x'] ∧
    (['x'] : List Char) ≠ ['x', btick, btick] := by
  refine ⟨by decide, by decide, by decide⟩

/-- C9 (amended): the extraction round trip holds for payloads that contain
no fence marker even after appending two backquotes (no `\x60\x60\x60`
inside and no trailing backquote); the plain-fence form additionally
requires the payload not to begin with the tag `json`; with no leading
fence the whole stripped reply is the payload. -/
theorem claim_C9_amended (p q r : List Char)
    (hp : hasSub fence3 (p ++ [btick, btick]) = false)
    (hq : hasSub fence3 (q ++ [btick, btick]) = false)
    (hqj : startsWithL jsonTag q = false)
    (hr : startsWithL fence3 (pyStrip r) = false) :
    extractPayload (fenceJson ++ p ++ fence3) = p ∧
    extractPayload (fence3 ++ q ++ fence3) = q ∧
    extractPayload r = pyStrip r :=
  ⟨extract_json_fenced p hp, extract_plain_fenced q hq hqj, extract_no_fence r hr⟩

/-- C9 witness: concrete round trips. -/
theorem claim_C9_witness :
    extractPayload (fenceJson ++ ['h', 'i'] ++ fence3) = ['h', 'i'] ∧
    extractPayload (fence3 ++ ['o', 'k'] ++ fence3) = ['o', 'k'] ∧
    extractPayload [' ', 'a'] = pyStrip [' ', 'a'] :=
  claim_C9_amended ['h', 'i'] ['o', 'k'] [' ', 'a']
    (by decide) (by decide) (by decide) (by decide)

/-- C1: the consensus starts both counters at 0; the complexity signal adds
one quantum vote only when the potential is `high` (with no classical
counterpart), the cost and feasibility signals each add exactly one vote to
one side; the agreement score is `max / total` (0 when the total is 0); the
majority is `quantum` exactly when quantum strictly exceeds classical, a tie
resolving to `classical`; and the same procedure both augments a parsed
decision and builds the fallback decision. -/
theorem claim_C1_consensus (c : ComplexityRaw) (k : CostDict) (f : FeasibilityDict) :
    ((calculate_consensus c k f).votes.quantum
      = (if c.quantum_advantage_potential = some "high" then 1 else 0)
        + (if roiRec k = some "quantum" then 1 else 0)
        + (if feasTruthy f then 1 else 0)) ∧
    ((calculate_consensus c k f).votes.classical
      = (if roiRec k = some "quantum" then 0 else 1)
        + (if feasTruthy f then 0 else 1)) ∧
    ((calculate_consensus c k f).agreement_score
      = if (calculate_consensus c k f).votes.quantum
            + (calculate_consensus c k f).votes.classical = 0 then 0
        else ((max (calculate_consensus c k f).votes.quantum
            (calculate_consensus c k f).votes.classical : ℕ) : ℚ)
          / (((calculate_consensus c k f).votes.quantum
            + (calculate_consensus c k f).votes.classical : ℕ) : ℚ)) ∧
    ((calculate_consensus c k f).majority = "quantum"
      ↔ (calculate_consensus c k f).votes.classical
        < (calculate_consensus c k f).votes.quantum) ∧
    ((calculate_consensus c k f).votes.quantum = (calculate_consensus c k f).votes.classical
      → (calculate_consensus c k f).majority = "classical") ∧
    (∀ (decode : List Char → Option DecisionDict) (r : List Char) (d : DecisionDict),
      decode (extractPayload r) = some d →
      make_decision decode c k f (.ok r)
        = .ok { d with
                  agent := some "Decision Maker"
                  agent_consensus := some (calculate_consensus c k f) }) ∧
    ((fallback_decision c k f).agent_consensus = some (calculate_consensus c k f)) ∧
    ((fallback_decision c k f).final_recommendation
      = some (calculate_consensus c k f).majority) := by
  refine ⟨?_, ?_, ?_, ?_, ?_, ?_, rfl, rfl⟩
  · simp only [calculate_consensus]
    split_ifs <;> rfl
  · simp only [calculate_consensus]
    split_ifs <;> rfl
  · simp only [calculate_consensus]
    split_ifs <;> simp_all
  · simp only [calculate_consensus]
    split_ifs <;> simp_all
  · simp only [calculate_consensus]
    split_ifs <;> simp_all
  · intro decode r d hd
    simp only [make_decision, hd]

/-- C1 witness: the parsed-decision path at a concrete reply. -/
theorem claim_C1_witness :
    make_decision (fun _ => some {}) {} {} {} (.ok badReply)
      = .ok { ({} : DecisionDict) with
                agent := some "Decision Maker"
                agent_consensus := some (calculate_consensus {} {} {}) } :=
  (claim_C1_consensus {} {} {}).2.2.2.2.2.1 (fun _ => some {}) badReply {} rfl

/-- C8 counterexample: a parse failure is NOT always recovered locally —
when the `problem_size` of the complexity profile is not a pricing-table
key, the fallback of the cost step itself raises a lookup error that
surfaces to the caller. -/
theorem claim_C8_counterexample :
    estimate_costs noDecode { problem_size := some "tiny" } (.ok badReply)
      = .error (.keyError "tiny") := rfl

/-- C8 (amended): a transport failure of the reasoning call is not caught
by any step: it propagates through the orchestrator to the HTTP boundary as
a 500 failure; an unparsable reply is recovered by the deterministic
fallback of the step for the complexity, feasibility and decision steps,
and for the cost step whenever the table lookup of its fallback is defined
(`problem_size` one of small/medium/large or absent). -/
theorem claim_C8_amended (problem : Problem) (complexity : ComplexityRaw) (cost : CostDict)
    (feasibility : FeasibilityDict) (devices : DeviceCatalog)
    (decodeC : List Char → Option ComplexityRaw) (decodeK : List Char → Option CostDict)
    (decodeF : List Char → Option FeasibilityDict) (decodeD : List Char → Option DecisionDict)
    (braketApi : Except String (List RawDevice))
    (msg : String) (r respK respF respD : List Char) :
    analyze decodeC problem (.error msg) = .error (.external msg) ∧
    estimate_costs decodeK complexity (.error msg) = .error (.external msg) ∧
    assess_feasibility decodeF complexity devices (.error msg) = .error (.external msg) ∧
    make_decision decodeD complexity cost feasibility (.error msg) = .error (.external msg) ∧
    analyze_problem decodeC decodeK decodeF decodeD problem braketApi
      (.error msg) (.ok respK) (.ok respF) (.ok respD) = .error (.external msg) ∧
    multi_agent_route (analyze_problem decodeC decodeK decodeF decodeD problem braketApi
      (.error msg) (.ok respK) (.ok respF) (.ok respD)) = ⟨500, false⟩ ∧
    (decodeC (extractPayload r) = none →
      analyze decodeC problem (.ok r) = .ok (fallback_analysis problem)) ∧
    (decodeF (extractPayload r) = none →
      assess_feasibility decodeF complexity devices (.ok r)
        = .ok (fallback_feasibility complexity devices)) ∧
    (decodeD (extractPayload r) = none →
      make_decision decodeD complexity cost feasibility (.ok r)
        = .ok (fallback_decision complexity cost feasibility)) ∧
    (decodeK (extractPayload r) = none →
      (complexity.problem_size.getD "medium" = "small" ∨
        complexity.problem_size.getD "medium" = "medium" ∨
        complexity.problem_size.getD "medium" = "large") →
      ∃ k : CostDict, estimate_costs decodeK complexity (.ok r) = .ok k) := by
  refine ⟨rfl, rfl, rfl, rfl, rfl, rfl, ?_, ?_, ?_, ?_⟩
  · intro h
    simp only [analyze, h]
  · intro h
    simp only [assess_feasibility, h]
  · intro h
    simp only [make_decision, h]
  · intro h hps
    rcases hps with hps | hps | hps
    · exact ⟨costSmall, by simp only [estimate_costs, h, fallback_cost_small complexity hps]⟩
    · exact ⟨costMedium, by simp only [estimate_costs, h, fallback_cost_medium complexity hps]⟩
    · exact ⟨costLarge, by simp only [estimate_costs, h, fallback_cost_large complexity hps]⟩

/-- C8 witness: the complexity fallback at a concrete unparsable reply. -/
theorem claim_C8_witness :
    analyze noDecode emptyProblem (.ok badReply) = .ok (fallback_analysis emptyProblem) :=
  (claim_C8_amended emptyProblem {} {} {} fallbackCatalog noDecode noDecode noDecode noDecode
    (.error "down") "boom" badReply badReply badReply badReply).2.2.2.2.2.2.1 rfl

/-- C6 counterexample: a decision reply that is well-formed JSON but omits
`final_recommendation` makes the orchestrator raise an `AttributeError`
(`.get("final_recommendation").upper()` on `None`), so the pipeline is not
exception-free on optional-field omissions, and no omitted sequence field
is ever defaulted to an empty sequence. -/
theorem claim_C6_counterexample :
    analyze_problem (fun _ => some ({} : ComplexityRaw)) (fun _ => some ({} : CostDict))
      (fun _ => some ({} : FeasibilityDict)) (fun _ => some ({} : DecisionDict))
      emptyProblem (.error "down") (.ok badReply) (.ok badReply) (.ok badReply) (.ok badReply)
      = .error (.attributeError "\x27NoneType\x27 object has no attribute \x27upper\x27") := rfl

/-- C6 (amended): for well-formed replies the pipeline completes without
raising exactly when the decision reply carries a `final_recommendation`;
omitted optional fields are passed through absent (never defaulted to an
empty sequence). -/
theorem claim_C6_amended (problem : Problem) (braketApi : Except String (List RawDevice))
    (ca : ComplexityRaw) (co : CostDict) (fe : FeasibilityDict) (de : DecisionDict)
    (rc rk rf rd : List Char) (s : String) (hs : de.final_recommendation = some s) :
    ∃ rep : Report,
      analyze_problem (fun _ => some ca) (fun _ => some co) (fun _ => some fe)
        (fun _ => some de) problem braketApi (.ok rc) (.ok rk) (.ok rf) (.ok rd) = .ok rep ∧
      rep.feasibility.limitations = fe.limitations ∧
      rep.feasibility.advantages = fe.advantages ∧
      rep.decision.supporting_factors = de.supporting_factors ∧
      rep.decision.final_recommendation = some s ∧
      rep.feasibility.available_devices = some (get_available_devices braketApi) := by
  refine ⟨⟨problem, { ca with agent := some "Complexity Analyzer" },
    { co with agent := some "Cost Estimator" },
    { fe with
        agent := some "Quantum Feasibility"
        available_devices := some (get_available_devices braketApi) },
    { de with
        agent := some "Decision Maker"
        agent_consensus := some (calculate_consensus
          { ca with agent := some "Complexity Analyzer" }
          { co with agent := some "Cost Estimator" }
          { fe with
              agent := some "Quantum Feasibility"
              available_devices := some (get_available_devices braketApi) }) }⟩,
    ?_, rfl, rfl, rfl, hs, rfl⟩
  simp only [analyze_problem, analyze, estimate_costs, assess_feasibility, make_decision]
  rw [hs]

/-- C6 witness: a decision reply with only `final_recommendation` present
completes the pipeline. -/
theorem claim_C6_witness :
    ∃ rep : Report,
      analyze_problem (fun _ => some ({} : ComplexityRaw)) (fun _ => some ({} : CostDict))
        (fun _ => some ({} : FeasibilityDict))
        (fun _ => some ({ final_recommendation := some "hybrid" } : DecisionDict))
        emptyProblem (.error "down") (.ok badReply) (.ok badReply) (.ok badReply) (.ok badReply)
        = .ok rep := by
  obtain ⟨rep, h1, -⟩ := claim_C6_amended emptyProblem (.error "down") {} {} {}
    { final_recommendation := some "hybrid" } badReply badReply badReply badReply "hybrid" rfl
  exact ⟨rep, h1⟩

theorem complexity5_eval : analyze noDecode sampleProblem (.ok badReply) = .ok complexity5 := rfl

theorem cost5_eval : estimate_costs noDecode complexity5 (.ok badReply) = .ok costLarge := by
  simp only [estimate_costs, noDecode, fallback_cost_large complexity5 rfl]

theorem feas5_eval :
    assess_feasibility noDecode complexity5 fallbackCatalog (.ok badReply) = .ok feas5 := rfl

theorem consensus5_eval :
    calculate_consensus complexity5 costLarge feas5 = ⟨⟨1, 1⟩, 1 / 2, "classical"⟩ := by
  simp only [calculate_consensus]
  rw [if_neg (show ¬(complexity5.quantum_advantage_potential = some "high") from by decide)]
  rw [if_pos (show roiRec costLarge = some "quantum" from by decide)]
  rw [if_neg (show ¬(feasTruthy feas5 = true) from by decide)]
  norm_num

theorem run5_eval :
    run5 = .ok ⟨sampleProblem, complexity5, costLarge, feas5,
      fallback_decision complexity5 costLarge feas5⟩ := by
  simp only [run5, analyze_problem, complexity5_eval, cost5_eval,
    show get_available_devices (Except.error "no api") = fallbackCatalog from rfl,
    feas5_eval,
    show make_decision noDecode complexity5 costLarge feas5 (.ok badReply)
      = .ok (fallback_decision complexity5 costLarge feas5) from rfl,
    show (fallback_decision complexity5 costLarge feas5).final_recommendation
      = some (calculate_consensus complexity5 costLarge feas5).majority from rfl]

/-- C5 counterexample: in the end-to-end scenario the classical side holds
one vote, not the claimed two — the large-size cost fallback has positive
savings and votes quantum, so the split is 1–1 with agreement 1/2 (tie,
majority classical). -/
theorem claim_C5_counterexample :
    reportConsensus run5 = some ⟨⟨1, 1⟩, 1 / 2, "classical"⟩ ∧ (1 : ℕ) ≠ 2 := by
  refine ⟨?_, by decide⟩
  rw [run5_eval]
  show some (calculate_consensus complexity5 costLarge feas5)
    = some ⟨⟨1, 1⟩, 1 / 2, "classical"⟩
  rw [consensus5_eval]

/-- C5 (amended): the scenario run yields the complexity fallback with
`variable_count = 50` and `problem_size = "large"`, the cost fallback with
`compute_hours = 8.0` and a `quantum` recommendation (savings positive for
large), the feasibility fallback with 50 infeasible qubits, and a fallback
decision whose votes split 1–1, majority `classical` by the tie-break, with
agreement score 1/2. -/
theorem claim_C5_amended :
    (reportComplexity run5).bind (fun a => a.variable_count) = some 50 ∧
    (reportComplexity run5).bind (fun a => a.problem_size) = some "large" ∧
    ((reportCost run5).bind (fun k => k.classical_cost)).bind (fun cc => cc.compute_hours)
      = some 8.0 ∧
    ((reportCost run5).bind (fun k => k.roi_analysis)).bind (fun roi => roi.recommendation)
      = some "quantum" ∧
    (reportFeasibility run5).bind (fun f => f.qubit_requirements) = some 50 ∧
    (reportFeasibility run5).bind (fun f => f.is_feasible) = some false ∧
    reportConsensus run5 = some ⟨⟨1, 1⟩, 1 / 2, "classical"⟩ ∧
    (run5 = .ok ⟨sampleProblem, complexity5, costLarge, feas5,
      fallback_decision complexity5 costLarge feas5⟩) := by
  refine ⟨?_, ?_, ?_, ?_, ?_, ?_, ?_, run5_eval⟩
  · rw [run5_eval]
    rfl
  · rw [run5_eval]
    rfl
  · rw [run5_eval]
    rfl
  · rw [run5_eval]
    rfl
  · rw [run5_eval]
    rfl
  · rw [run5_eval]
    rfl
  · rw [run5_eval]
    show some (calculate_consensus complexity5 costLarge feas5)
      = some ⟨⟨1, 1⟩, 1 / 2, "classical"⟩
    rw [consensus5_eval]

end QuantumOptimizer
